import Mathlib

/-!
Shallow embedding of the Athena custom-resource query handler of
`packages/@aws-cdk/aws-athena/lib/work-group.ts` (the inline Python
`on_event` function in `handlerCode`, lines 366-413), together with the
`CustomResource` property records built by the `Database` and `Table`
constructs (lines 214-226 and 279-297).

Modelling conventions:
- Python dict accesses that may raise `KeyError` are modelled with
  `Option` fields; a `none` access produces an exception value.
- The botocore client is an oracle `Env`: `start_query_execution` may
  throw (`Except.error`) or return a `QueryExecutionId`;
  `get_query_execution` is indexed by the number of calls already made
  in this invocation and returns the execution status record (or throws).
- `cfnresponse.send` calls are recorded in order in a list of `Response`
  values; `print` and `logger` calls are recorded in a log list;
  `time.sleep` calls are counted.
- The `except` block of `on_event` references `physical_id`; when the
  original exception was raised before `physical_id` was assigned
  (i.e. by `event['RequestId']`), the Python handler raises `NameError`
  out of `on_event`.  This is the `HandlerResult.uncaught` outcome.
-/

/-- Result of one `get_query_execution` call:
`execution['QueryExecution']['Status']` with its `State` and
`StateChangeReason` fields. -/
structure PollResult where
  State : String
  StateChangeReason : String
deriving DecidableEq, Repr

/-- One `cfnresponse.send` call: the response status (`cfnresponse.SUCCESS`
or `cfnresponse.FAILED`), the response data mapping (the handler always
passes the empty dict) and the physical resource id. -/
structure Response where
  status : String
  data : List (String × String)
  physicalResourceId : String
deriving DecidableEq, Repr

/-- `event['ResourceProperties']`: each key may be absent. -/
structure ResourceProps where
  CreateQueryString : Option String
  UpdateQueryString : Option String
  DeleteQueryString : Option String
  WorkGroup : Option String
deriving DecidableEq, Repr

/-- The lifecycle event delivered to `on_event`; each key may be absent. -/
structure Event where
  RequestId : Option String
  RequestType : Option String
  ResourceProperties : Option ResourceProps
deriving DecidableEq, Repr

/-- Oracle for the Athena client used by the handler.
`get_query_execution n` is the result of the `(n+1)`-st
`get_query_execution` call of this invocation (all calls use the same
`QueryExecutionId`, so only the call index matters). -/
structure Env where
  start_query_execution : String → String → Except String String
  get_query_execution : Nat → Except String PollResult

/-- `cfnresponse.SUCCESS` -/
def cfnSUCCESS : String := "SUCCESS"

/-- `cfnresponse.FAILED` -/
def cfnFAILED : String := "FAILED"

/-- `sleep_amount = 2` (line 390). -/
def sleep_amount : Nat := 2

/-- `max_attempts = 20` (line 391). -/
def max_attempts : Nat := 20

/-- Normal exit of the poll loop: the response sent inside the loop, if
any; the number of `get_query_execution` calls made; the number of
`time.sleep` calls made; the accumulated log. -/
structure LoopOut where
  sent : Option Response
  numPolls : Nat
  numSleeps : Nat
  log : List String
deriving DecidableEq, Repr

/-- Exceptional exit of the poll loop (a `get_query_execution` call
threw), carrying the same observations. -/
structure LoopErr where
  err : String
  numPolls : Nat
  numSleeps : Nat
  log : List String
deriving DecidableEq, Repr

/-- The `while` loop of `on_event` (lines 395-409):

```
while execution_state == 'RUNNING' or execution_state == 'QUEUED':
  execution = client.get_query_execution(QueryExecutionId=query_id)
  num_attempts += 1
  execution_state = execution['QueryExecution']['Status']['State']
  if execution_state == 'SUCCEEDED':
    print('Query succeeded')
    cfnresponse.send(event, context, cfnresponse.SUCCESS, {}, physical_id)
    break
  elif execution_state == 'CANCELLED' or execution_state == 'FAILED'
       or num_attempts >= max_attempts:
    print('Query failed or cancelled: ' + ...StateChangeReason)
    cfnresponse.send(event, context, cfnresponse.SUCCESS, {}, physical_id)
    break
  time.sleep(sleep_amount)
```

Termination does not need fuel: every iteration increments
`num_attempts` and the `elif` branch fires once `num_attempts` reaches
`max_attempts`, so the recursion is on `max_attempts - num_attempts`. -/
def queryLoop (poll : Nat → Except String PollResult) (physical_id : String)
    (execution_state : String) (num_attempts num_sleeps : Nat)
    (log : List String) : Except LoopErr LoopOut :=
  if execution_state = "RUNNING" ∨ execution_state = "QUEUED" then
    match poll num_attempts with
    | .error e => .error ⟨e, num_attempts + 1, num_sleeps, log⟩
    | .ok execution =>
      if execution.State = "SUCCEEDED" then
        .ok ⟨some ⟨cfnSUCCESS, [], physical_id⟩, num_attempts + 1, num_sleeps,
             log ++ ["Query succeeded"]⟩
      else if h2 : execution.State = "CANCELLED" ∨ execution.State = "FAILED" ∨
          num_attempts + 1 ≥ max_attempts then
        .ok ⟨some ⟨cfnSUCCESS, [], physical_id⟩, num_attempts + 1, num_sleeps,
             log ++ ["Query failed or cancelled: " ++ execution.StateChangeReason]⟩
      else
        queryLoop poll physical_id execution.State (num_attempts + 1)
          (num_sleeps + 1) log
  else
    .ok ⟨none, num_attempts, num_sleeps, log⟩
termination_by max_attempts - num_attempts
decreasing_by
  simp only [not_or, not_le, max_attempts] at h2 ⊢
  omega

/-- Statement selection (lines 371-377): `queryString` starts as `''` and
is overwritten by the matching branch; each branch indexes
`event['ResourceProperties'][...]`, which may raise `KeyError`. -/
def selectQueryString (request_type : String) (event : Event) :
    Except String String :=
  if request_type = "Create" then
    match event.ResourceProperties with
    | none => .error "KeyError: ResourceProperties"
    | some rp =>
      match rp.CreateQueryString with
      | none => .error "KeyError: CreateQueryString"
      | some s => .ok s
  else if request_type = "Update" then
    match event.ResourceProperties with
    | none => .error "KeyError: ResourceProperties"
    | some rp =>
      match rp.UpdateQueryString with
      | none => .error "KeyError: UpdateQueryString"
      | some s => .ok s
  else if request_type = "Delete" then
    match event.ResourceProperties with
    | none => .error "KeyError: ResourceProperties"
    | some rp =>
      match rp.DeleteQueryString with
      | none => .error "KeyError: DeleteQueryString"
      | some s => .ok s
  else .ok ""

/-- `workGroup = event['ResourceProperties']['WorkGroup']` (line 381):
a plain dict access, raising `KeyError` when the key is absent. -/
def getWorkGroup (event : Event) : Except String String :=
  match event.ResourceProperties with
  | none => .error "KeyError: ResourceProperties"
  | some rp =>
    match rp.WorkGroup with
    | none => .error "KeyError: WorkGroup"
    | some wg => .ok wg

/-- Observable outcome of one `on_event` invocation: either the function
returned, having sent the listed responses (in order), submitted the
listed `(QueryString, WorkGroup)` pairs, made the given numbers of
poll and sleep calls and produced the given log; or an exception escaped
`on_event` (the `NameError` on `physical_id` in the `except` block). -/
inductive HandlerResult where
  | ok (sent : List Response) (submits : List (String × String))
      (numPolls numSleeps : Nat) (log : List String)
  | uncaught (err : String)
deriving DecidableEq, Repr

/-- The handler `on_event` (lines 366-413).  The whole body is inside
`try:`; the `except` block logs the exception and sends a FAILED
response using `physical_id`, which is unbound — hence `NameError` —
when the exception was raised by `event['RequestId']` itself. -/
def on_event (env : Env) (event : Event) : HandlerResult :=
  match event.RequestId with
  | none =>
    .uncaught "NameError: name physical_id is not defined"
  | some requestId =>
    let physical_id := "AthenaQuery" ++ requestId
    match event.RequestType with
    | none =>
      .ok [⟨cfnFAILED, [], physical_id⟩] [] 0 0 ["KeyError: RequestType"]
    | some request_type =>
      match selectQueryString request_type event with
      | .error e => .ok [⟨cfnFAILED, [], physical_id⟩] [] 0 0 [e]
      | .ok queryString =>
        match getWorkGroup event with
        | .error e =>
          .ok [⟨cfnFAILED, [], physical_id⟩] [] 0 0 [queryString, e]
        | .ok workGroup =>
          match env.start_query_execution queryString workGroup with
          | .error e =>
            .ok [⟨cfnFAILED, [], physical_id⟩] [(queryString, workGroup)] 0 0
               [queryString, e]
          | .ok _query_id =>
            match queryLoop env.get_query_execution physical_id "RUNNING" 0 0
                [queryString] with
            | .error le =>
              .ok [⟨cfnFAILED, [], physical_id⟩] [(queryString, workGroup)]
                 le.numPolls le.numSleeps (le.log ++ [le.err])
            | .ok lo =>
              .ok lo.sent.toList [(queryString, workGroup)]
                 lo.numPolls lo.numSleeps lo.log

/-- The responses sent during one invocation (none when the exception
escaped). -/
def sentResponses : HandlerResult → List Response
  | .ok sent _ _ _ _ => sent
  | .uncaught _ => []

/-- The `(QueryString, WorkGroup)` pairs submitted via
`start_query_execution` during one invocation. -/
def submitsOf : HandlerResult → List (String × String)
  | .ok _ submits _ _ _ => submits
  | .uncaught _ => []

/-- The number of `get_query_execution` calls made during one
invocation. -/
def pollsOf : HandlerResult → Nat
  | .ok _ _ numPolls _ _ => numPolls
  | .uncaught _ => 0

/-- The number of `time.sleep` calls made during one invocation. -/
def sleepsOf : HandlerResult → Nat
  | .ok _ _ _ numSleeps _ => numSleeps
  | .uncaught _ => 0

/-- The log produced during one invocation. -/
def logOf : HandlerResult → List String
  | .ok _ _ _ _ log => log
  | .uncaught _ => []

/-! ### Lemmas about the poll loop -/

/-- Unfolding the loop when the guard holds, the poll succeeds, and the
polled state is again non-terminal with the attempt ceiling not reached:
the iteration falls through to `time.sleep` and the loop continues. -/
theorem queryLoop_nonterminal_step (poll : Nat → Except String PollResult)
    (physical_id st : String) (j sl : Nat) (lg : List String)
    (pr : PollResult)
    (hst : st = "RUNNING" ∨ st = "QUEUED")
    (hp : poll j = .ok pr)
    (hpr : pr.State = "RUNNING" ∨ pr.State = "QUEUED")
    (hj : j + 1 < max_attempts) :
    queryLoop poll physical_id st j sl lg =
      queryLoop poll physical_id pr.State (j + 1) (sl + 1) lg := by
  rw [queryLoop.eq_def]
  have hne : pr.State ≠ "SUCCEEDED" := by
    rcases hpr with h | h <;> simp [h]
  have hne2 : ¬ (pr.State = "CANCELLED" ∨ pr.State = "FAILED" ∨
      j + 1 ≥ max_attempts) := by
    push_neg
    refine ⟨?_, ?_, by omega⟩ <;> rcases hpr with h | h <;> simp [h]
  simp [hst, hp, hne, hne2]

/-- Unfolding the loop when the guard holds and the poll reports
`SUCCEEDED`: a SUCCESS response is sent and the loop breaks. -/
theorem queryLoop_succeeded_step (poll : Nat → Except String PollResult)
    (physical_id st : String) (j sl : Nat) (lg : List String)
    (pr : PollResult)
    (hst : st = "RUNNING" ∨ st = "QUEUED")
    (hp : poll j = .ok pr)
    (hpr : pr.State = "SUCCEEDED") :
    queryLoop poll physical_id st j sl lg =
      .ok ⟨some ⟨cfnSUCCESS, [], physical_id⟩, j + 1, sl,
           lg ++ ["Query succeeded"]⟩ := by
  rw [queryLoop.eq_def]
  simp [hst, hp, hpr]

/-- Unfolding the loop when the guard holds, the poll succeeds, and
either the polled state is `CANCELLED`/`FAILED` or the attempt ceiling
is reached: the reason is printed and a SUCCESS response is sent. -/
theorem queryLoop_failbranch_step (poll : Nat → Except String PollResult)
    (physical_id st : String) (j sl : Nat) (lg : List String)
    (pr : PollResult)
    (hst : st = "RUNNING" ∨ st = "QUEUED")
    (hp : poll j = .ok pr)
    (hne : pr.State ≠ "SUCCEEDED")
    (hcond : pr.State = "CANCELLED" ∨ pr.State = "FAILED" ∨
      j + 1 ≥ max_attempts) :
    queryLoop poll physical_id st j sl lg =
      .ok ⟨some ⟨cfnSUCCESS, [], physical_id⟩, j + 1, sl,
           lg ++ ["Query failed or cancelled: " ++ pr.StateChangeReason]⟩ := by
  rw [queryLoop.eq_def]
  simp [hst, hp, hne, hcond]

/-- Unfolding the loop when the guard holds and the poll throws: the
exception propagates out of the loop. -/
theorem queryLoop_error_step (poll : Nat → Except String PollResult)
    (physical_id st : String) (j sl : Nat) (lg : List String) (e : String)
    (hst : st = "RUNNING" ∨ st = "QUEUED")
    (hp : poll j = .error e) :
    queryLoop poll physical_id st j sl lg = .error ⟨e, j + 1, sl, lg⟩ := by
  rw [queryLoop.eq_def]
  simp [hst, hp]

/-- If the first `k - j` polls from position `j` all succeed with a
non-terminal (`RUNNING`/`QUEUED`) state and `k < max_attempts`, the loop
advances to attempt index `k` in some non-terminal state, accumulating
one sleep per iteration. -/
theorem queryLoop_advance (poll : Nat → Except String PollResult)
    (physical_id : String) (j k sl : Nat) (lg : List String) (st : String)
    (hst : st = "RUNNING" ∨ st = "QUEUED")
    (hk : k < max_attempts) (hj : j ≤ k)
    (hpre : ∀ i, j ≤ i → i < k → ∃ pr, poll i = .ok pr ∧
      (pr.State = "RUNNING" ∨ pr.State = "QUEUED")) :
    ∃ st2, (st2 = "RUNNING" ∨ st2 = "QUEUED") ∧
      queryLoop poll physical_id st j sl lg =
        queryLoop poll physical_id st2 k (sl + (k - j)) lg := by
  induction k with
  | zero =>
    have hj0 : j = 0 := Nat.le_zero.mp hj
    exact ⟨st, hst, by simp [hj0]⟩
  | succ k ih =>
    rcases Nat.lt_or_ge j (k + 1) with hlt | hge
    · have hjk : j ≤ k := Nat.lt_succ_iff.mp hlt
      obtain ⟨st2, hst2, heq⟩ := ih (Nat.lt_of_succ_lt hk) hjk
        (fun i hji hik => hpre i hji (Nat.lt_succ_of_lt hik))
      obtain ⟨pr, hp, hpr⟩ := hpre k hjk (Nat.lt_succ_self k)
      refine ⟨pr.State, hpr, ?_⟩
      rw [heq, queryLoop_nonterminal_step poll physical_id st2 k
        (sl + (k - j)) lg pr hst2 hp hpr hk]
      have : sl + (k - j) + 1 = sl + (k + 1 - j) := by omega
      rw [this]
    · have hj1 : j = k + 1 := Nat.le_antisymm hj hge
      exact ⟨st, hst, by simp [hj1]⟩

/-- Any response the loop sends is exactly a SUCCESS response with empty
data and the supplied physical id. -/
theorem queryLoop_sent_shape (poll : Nat → Except String PollResult)
    (physical_id : String) :
    ∀ fuel j, max_attempts - j ≤ fuel →
    ∀ st sl lg lo, queryLoop poll physical_id st j sl lg = .ok lo →
    ∀ r, lo.sent = some r → r = ⟨cfnSUCCESS, [], physical_id⟩ := by
  intro fuel
  induction fuel with
  | zero =>
    intro j hfuel st sl lg lo hlo r hr
    have hj : max_attempts ≤ j := by omega
    rw [queryLoop.eq_def] at hlo
    by_cases hst : st = "RUNNING" ∨ st = "QUEUED"
    · simp only [hst, if_true] at hlo
      rcases hp : poll j with e | pr <;> rw [hp] at hlo
      · simp at hlo
      · by_cases hsu : pr.State = "SUCCEEDED"
        · simp [hsu] at hlo
          rw [← hlo] at hr
          simp at hr
          exact hr.symm
        · have hcond : pr.State = "CANCELLED" ∨ pr.State = "FAILED" ∨
              j + 1 ≥ max_attempts := Or.inr (Or.inr (by omega))
          simp [hsu, hcond] at hlo
          rw [← hlo] at hr
          simp at hr
          exact hr.symm
    · simp only [hst, if_false, Except.ok.injEq] at hlo
      rw [← hlo] at hr
      simp at hr
  | succ fuel ih =>
    intro j _hfuel st sl lg lo hlo r hr
    rw [queryLoop.eq_def] at hlo
    by_cases hst : st = "RUNNING" ∨ st = "QUEUED"
    · simp only [hst, if_true] at hlo
      rcases hp : poll j with e | pr <;> rw [hp] at hlo
      · simp at hlo
      · by_cases hsu : pr.State = "SUCCEEDED"
        · simp [hsu] at hlo
          rw [← hlo] at hr
          simp at hr
          exact hr.symm
        · by_cases hcond : pr.State = "CANCELLED" ∨ pr.State = "FAILED" ∨
              j + 1 ≥ max_attempts
          · simp [hsu, hcond] at hlo
            rw [← hlo] at hr
            simp at hr
            exact hr.symm
          · simp only [hsu, hcond, if_false, dif_neg, if_true] at hlo
            have hj1 : max_attempts - (j + 1) ≤ fuel := by
              push_neg at hcond
              omega
            exact ih (j + 1) hj1 pr.State (sl + 1) lg lo hlo r hr
    · simp only [hst, if_false, Except.ok.injEq] at hlo
      rw [← hlo] at hr
      simp at hr

/-- Number of polls observed at loop exit, for both exit kinds. -/
def loopPolls : Except LoopErr LoopOut → Nat
  | .error le => le.numPolls
  | .ok lo => lo.numPolls

/-- Starting below the attempt ceiling, the loop never makes more than
`max_attempts` poll calls, on every path. -/
theorem queryLoop_polls_le (poll : Nat → Except String PollResult)
    (physical_id : String) :
    ∀ fuel j, max_attempts - j ≤ fuel → j < max_attempts →
    ∀ st sl lg,
      loopPolls (queryLoop poll physical_id st j sl lg) ≤ max_attempts := by
  intro fuel
  induction fuel with
  | zero =>
    intro j hfuel hj
    exact absurd hj (by omega)
  | succ fuel ih =>
    intro j _hfuel hj st sl lg
    rw [queryLoop.eq_def]
    by_cases hst : st = "RUNNING" ∨ st = "QUEUED"
    · simp only [hst, if_true]
      rcases hp : poll j with e | pr
      · simp [loopPolls]
        omega
      · by_cases hsu : pr.State = "SUCCEEDED"
        · simp [hsu, loopPolls]
          omega
        · by_cases hcond : pr.State = "CANCELLED" ∨ pr.State = "FAILED" ∨
              j + 1 ≥ max_attempts
          · simp [hsu, hcond, loopPolls]
            omega
          · simp only [hsu, hcond, if_false, dif_neg]
            have hj1 : j + 1 < max_attempts := by
              push_neg at hcond
              omega
            exact ih (j + 1) (by omega) hj1 pr.State (sl + 1) lg
    · simp only [hst, if_false]
      simp [loopPolls]
      omega

/-! ### Lemmas about `on_event` -/

/-- When the event fields and the submission all succeed, `on_event`
reduces to the poll loop started in state `RUNNING` with zero attempts
and the printed query string in the log. -/
theorem on_event_loop (env : Env) (event : Event)
    (rid rt qs wg qid : String)
    (h1 : event.RequestId = some rid)
    (h2 : event.RequestType = some rt)
    (h3 : selectQueryString rt event = .ok qs)
    (h4 : getWorkGroup event = .ok wg)
    (h5 : env.start_query_execution qs wg = .ok qid) :
    on_event env event =
      match queryLoop env.get_query_execution ("AthenaQuery" ++ rid)
          "RUNNING" 0 0 [qs] with
      | .error le =>
        .ok [⟨cfnFAILED, [], "AthenaQuery" ++ rid⟩] [(qs, wg)]
           le.numPolls le.numSleeps (le.log ++ [le.err])
      | .ok lo =>
        .ok lo.sent.toList [(qs, wg)] lo.numPolls lo.numSleeps lo.log := by
  simp only [on_event, h1, h2, h3, h4, h5]

/-- Whenever statement selection and the `WorkGroup` access succeed, the
selected statement is submitted exactly once, with that work group. -/
theorem on_event_submits (env : Env) (event : Event)
    (rid rt qs wg : String)
    (h1 : event.RequestId = some rid)
    (h2 : event.RequestType = some rt)
    (h3 : selectQueryString rt event = .ok qs)
    (h4 : getWorkGroup event = .ok wg) :
    submitsOf (on_event env event) = [(qs, wg)] := by
  simp only [on_event, h1, h2, h3, h4]
  rcases h5 : env.start_query_execution qs wg with e | qid
  · rfl
  · rcases hq : queryLoop env.get_query_execution ("AthenaQuery" ++ rid)
        "RUNNING" 0 0 [qs] with le | lo <;> rfl

/-! ### Concrete fixtures used by witnesses and counterexamples -/

/-- A fully populated `ResourceProperties` dict. -/
def rpFull : ResourceProps := ⟨some "cq", some "uq", some "dq", some "wg"⟩

/-- A fully populated lifecycle event. -/
def eventFull : Event := ⟨some "rid1", some "Create", some rpFull⟩

/-- Event whose `RequestId` is the empty string. -/
def eventEmptyRid : Event := ⟨some "", some "Create", some rpFull⟩

/-- Event with no `RequestId` key. -/
def eventNoRid : Event := ⟨none, some "Create", some rpFull⟩

/-- `ResourceProperties` dict with no `WorkGroup` key. -/
def rpNoWg : ResourceProps := ⟨some "cq", some "uq", some "dq", none⟩

/-- Event whose `ResourceProperties` has no `WorkGroup` key. -/
def eventNoWg : Event := ⟨some "r9", some "Create", some rpNoWg⟩

/-- Client whose query succeeds on the first poll. -/
def envSucceed : Env :=
  ⟨fun _ _ => .ok "qid", fun _ => .ok ⟨"SUCCEEDED", "done"⟩⟩

/-- Client whose query runs once and then fails. -/
def envFailOnce : Env :=
  ⟨fun _ _ => .ok "qid",
   fun n => if n = 0 then .ok ⟨"RUNNING", "r0"⟩ else .ok ⟨"FAILED", "boom"⟩⟩

/-- Client whose query never leaves the `RUNNING` state. -/
def envAllRunning : Env :=
  ⟨fun _ _ => .ok "qid", fun _ => .ok ⟨"RUNNING", "still running"⟩⟩

/-- Client observing the status sequence QUEUED, RUNNING, SUCCEEDED. -/
def envQRS : Env :=
  ⟨fun _ _ => .ok "qid",
   fun n => if n = 0 then .ok ⟨"QUEUED", "q"⟩
            else if n = 1 then .ok ⟨"RUNNING", "r"⟩
            else .ok ⟨"SUCCEEDED", "s"⟩⟩

/-- Client whose `start_query_execution` call throws. -/
def envStartThrows : Env :=
  ⟨fun _ _ => .error "AccessDenied", fun _ => .ok ⟨"SUCCEEDED", "s"⟩⟩

/-! ### Claims -/

/-- C1: if the polled status becomes `FAILED` or `CANCELLED` within the
attempt ceiling, `on_event` sends a SUCCESS (not FAILED) response with
empty data; the failure reason appears only in the log, never in the
response data. -/
theorem C1_failed_or_cancelled_swallowed (env : Env) (event : Event)
    (rid rt qs wg qid : String) (k : Nat) (pr : PollResult)
    (h1 : event.RequestId = some rid)
    (h2 : event.RequestType = some rt)
    (h3 : selectQueryString rt event = .ok qs)
    (h4 : getWorkGroup event = .ok wg)
    (h5 : env.start_query_execution qs wg = .ok qid)
    (hk : k < max_attempts)
    (hpre : ∀ i, i < k → ∃ q, env.get_query_execution i = .ok q ∧
      (q.State = "RUNNING" ∨ q.State = "QUEUED"))
    (hterm : env.get_query_execution k = .ok pr)
    (hfc : pr.State = "FAILED" ∨ pr.State = "CANCELLED") :
    on_event env event =
      .ok [⟨cfnSUCCESS, [], "AthenaQuery" ++ rid⟩] [(qs, wg)] (k + 1) k
         [qs, "Query failed or cancelled: " ++ pr.StateChangeReason] := by
  rw [on_event_loop env event rid rt qs wg qid h1 h2 h3 h4 h5]
  obtain ⟨st2, hst2, heq⟩ := queryLoop_advance env.get_query_execution
    ("AthenaQuery" ++ rid) 0 k 0 [qs] "RUNNING" (Or.inl rfl) hk
    (Nat.zero_le k) (fun i _ hik => hpre i hik)
  rw [heq]
  have hne : pr.State ≠ "SUCCEEDED" := by
    rcases hfc with h | h <;> simp [h]
  have hcond : pr.State = "CANCELLED" ∨ pr.State = "FAILED" ∨
      k + 1 ≥ max_attempts := by
    rcases hfc with h | h
    · exact Or.inr (Or.inl h)
    · exact Or.inl h
  rw [queryLoop_failbranch_step env.get_query_execution ("AthenaQuery" ++ rid)
    st2 k (0 + (k - 0)) [qs] pr hst2 hterm hne hcond]
  simp

/-- C1 witness: status sequence RUNNING, FAILED on a concrete event. -/
theorem C1_witness :
    on_event envFailOnce eventFull =
      .ok [⟨cfnSUCCESS, [], "AthenaQuery" ++ "rid1"⟩] [("cq", "wg")] 2 1
         ["cq", "Query failed or cancelled: boom"] :=
  C1_failed_or_cancelled_swallowed envFailOnce eventFull "rid1" "Create"
    "cq" "wg" "qid" 1 ⟨"FAILED", "boom"⟩ rfl rfl rfl rfl rfl
    (by simp [max_attempts])
    (by intro i hik
        interval_cases i
        exact ⟨⟨"RUNNING", "r0"⟩, rfl, Or.inl rfl⟩)
    rfl (Or.inl rfl)

/-- C2 counterexample: with every poll returning `RUNNING`, reaching the
attempt ceiling does NOT exit silently — the handler sends a SUCCESS
response (the `num_attempts >= max_attempts` disjunct of the
failed/cancelled branch fires), refuting the claim that no response
branch fires on this path. -/
theorem C2_counterexample :
    sentResponses (on_event envAllRunning eventFull) =
      [⟨cfnSUCCESS, [], "AthenaQuery" ++ "rid1"⟩] ∧
    sentResponses (on_event envAllRunning eventFull) ≠ [] := by
  rw [on_event_loop envAllRunning eventFull "rid1" "Create" "cq" "wg" "qid"
    rfl rfl rfl rfl rfl]
  obtain ⟨st2, hst2, heq⟩ := queryLoop_advance envAllRunning.get_query_execution
    ("AthenaQuery" ++ "rid1") 0 19 0 ["cq"] "RUNNING" (Or.inl rfl)
    (by simp [max_attempts]) (Nat.zero_le 19)
    (fun i _ _ => ⟨⟨"RUNNING", "still running"⟩, rfl, Or.inl rfl⟩)
  rw [heq]
  rw [queryLoop_failbranch_step envAllRunning.get_query_execution
    ("AthenaQuery" ++ "rid1") st2 19 (0 + (19 - 0)) ["cq"]
    ⟨"RUNNING", "still running"⟩ hst2 rfl (by simp)
    (Or.inr (Or.inr (by simp [max_attempts])))]
  simp [sentResponses]

/-- C2 amended: when the attempt ceiling is reached while the status is
still non-terminal, the failed/cancelled branch fires via its
`num_attempts >= max_attempts` disjunct: the handler sends a SUCCESS
response with empty data after exactly `max_attempts` polls, logs the
last `StateChangeReason`, and exits the loop. -/
theorem C2_ceiling_sends_success (env : Env) (event : Event)
    (rid rt qs wg qid : String) (prl : PollResult)
    (h1 : event.RequestId = some rid)
    (h2 : event.RequestType = some rt)
    (h3 : selectQueryString rt event = .ok qs)
    (h4 : getWorkGroup event = .ok wg)
    (h5 : env.start_query_execution qs wg = .ok qid)
    (hpre : ∀ i, i + 1 < max_attempts →
      ∃ q, env.get_query_execution i = .ok q ∧
        (q.State = "RUNNING" ∨ q.State = "QUEUED"))
    (hlast : env.get_query_execution (max_attempts - 1) = .ok prl)
    (hl : prl.State = "RUNNING" ∨ prl.State = "QUEUED") :
    on_event env event =
      .ok [⟨cfnSUCCESS, [], "AthenaQuery" ++ rid⟩] [(qs, wg)]
         max_attempts (max_attempts - 1)
         [qs, "Query failed or cancelled: " ++ prl.StateChangeReason] := by
  rw [on_event_loop env event rid rt qs wg qid h1 h2 h3 h4 h5]
  obtain ⟨st2, hst2, heq⟩ := queryLoop_advance env.get_query_execution
    ("AthenaQuery" ++ rid) 0 (max_attempts - 1) 0 [qs] "RUNNING" (Or.inl rfl)
    (by simp only [max_attempts]; omega) (Nat.zero_le _)
    (fun i _ hik => hpre i (by omega))
  rw [heq]
  have hne : prl.State ≠ "SUCCEEDED" := by
    rcases hl with h | h <;> simp [h]
  rw [queryLoop_failbranch_step env.get_query_execution ("AthenaQuery" ++ rid)
    st2 (max_attempts - 1) (0 + (max_attempts - 1 - 0)) [qs] prl hst2 hlast hne
    (Or.inr (Or.inr (by simp only [max_attempts]; omega)))]
  simp only [max_attempts]
  simp

/-- C2 witness: every poll `RUNNING`; SUCCESS sent after 20 polls. -/
theorem C2_witness :
    on_event envAllRunning eventFull =
      .ok [⟨cfnSUCCESS, [], "AthenaQuery" ++ "rid1"⟩] [("cq", "wg")]
         max_attempts (max_attempts - 1)
         ["cq", "Query failed or cancelled: still running"] :=
  C2_ceiling_sends_success envAllRunning eventFull "rid1" "Create" "cq" "wg"
    "qid" ⟨"RUNNING", "still running"⟩ rfl rfl rfl rfl rfl
    (fun _ _ => ⟨⟨"RUNNING", "still running"⟩, rfl, Or.inl rfl⟩)
    rfl (Or.inl rfl)

/-- Every response sent by `on_event` carries the physical id
`"AthenaQuery" ++ requestId`, whatever the outcome. -/
theorem on_event_sent_pid (env : Env) (event : Event) (rid : String)
    (h1 : event.RequestId = some rid) :
    ∀ r ∈ sentResponses (on_event env event),
      r.physicalResourceId = "AthenaQuery" ++ rid := by
  intro r hr
  rcases h2 : event.RequestType with _ | rt
  · simp only [on_event, h1, h2, sentResponses, List.mem_singleton] at hr
    rw [hr]
  · rcases h3 : selectQueryString rt event with e | qs
    · simp only [on_event, h1, h2, h3, sentResponses, List.mem_singleton] at hr
      rw [hr]
    · rcases h4 : getWorkGroup event with e | wg
      · simp only [on_event, h1, h2, h3, h4, sentResponses,
          List.mem_singleton] at hr
        rw [hr]
      · rcases h5 : env.start_query_execution qs wg with e | qid
        · simp only [on_event, h1, h2, h3, h4, h5, sentResponses,
            List.mem_singleton] at hr
          rw [hr]
        · rcases hq : queryLoop env.get_query_execution ("AthenaQuery" ++ rid)
              "RUNNING" 0 0 [qs] with le | lo
          · simp only [on_event, h1, h2, h3, h4, h5, hq, sentResponses,
              List.mem_singleton] at hr
            rw [hr]
          · simp only [on_event, h1, h2, h3, h4, h5, hq, sentResponses] at hr
            rcases hs : lo.sent with _ | r2
            · rw [hs] at hr
              simp at hr
            · rw [hs] at hr
              simp only [Option.toList_some, List.mem_singleton] at hr
              have hsent : lo.sent = some r := by
                rw [hs, hr]
              have hshape := queryLoop_sent_shape env.get_query_execution
                ("AthenaQuery" ++ rid) max_attempts 0 (by omega) "RUNNING" 0
                [qs] lo hq r hsent
              rw [hshape]

/-- C3 counterexample: with the empty `requestId`, the response physical
id is `"AthenaQuery"`, not `"Query" + requestId = "Query"` as the claim
states. -/
theorem C3_counterexample :
    sentResponses (on_event envSucceed eventEmptyRid) =
      [⟨cfnSUCCESS, [], "AthenaQuery"⟩] ∧
    "AthenaQuery" ≠ "Query" ++ "" := by
  constructor
  · rw [on_event_loop envSucceed eventEmptyRid "" "Create" "cq" "wg" "qid"
      rfl rfl rfl rfl rfl]
    rw [queryLoop_succeeded_step envSucceed.get_query_execution
      ("AthenaQuery" ++ "") "RUNNING" 0 0 ["cq"] ⟨"SUCCEEDED", "done"⟩
      (Or.inl rfl) rfl rfl]
    simp [sentResponses]
  · decide

/-- C3 amended: the physical resource id of every response equals
`"AthenaQuery" ++ requestId` (prefix `AthenaQuery`, not `Query`), for
every request id including the empty string and for both outcomes; being
a function of the request id alone, two invocations with the same
request id yield the same physical resource id. -/
theorem C3_physical_id_amended (env : Env) (event : Event) (rid : String)
    (h1 : event.RequestId = some rid) :
    ((sentResponses (on_event env event)).all
      (fun r => r.physicalResourceId == "AthenaQuery" ++ rid)) = true := by
  rw [List.all_eq_true]
  intro r hr
  exact beq_iff_eq.mpr (on_event_sent_pid env event rid h1 r hr)

/-- C3 witness: concrete event, first poll SUCCEEDED. -/
theorem C3_witness :
    ((sentResponses (on_event envSucceed eventFull)).all
      (fun r => r.physicalResourceId == "AthenaQuery" ++ "rid1")) = true :=
  C3_physical_id_amended envSucceed eventFull "rid1" rfl

/-- C4 (code bug witness): when the event has no `RequestId`, the
`KeyError` is raised before `physical_id` is assigned; the `except`
block then references the unbound `physical_id` and the resulting
`NameError` escapes `on_event` instead of a FAILED response being
sent. -/
theorem C4_missing_request_id_escapes :
    on_event envSucceed eventNoRid =
      .uncaught "NameError: name physical_id is not defined" := rfl

/-- C5: `on_event` submits exactly the statement matching the request
type — Create selects `CreateQueryString`, Update selects
`UpdateQueryString`, Delete selects `DeleteQueryString` — and any
unrecognized request type submits the empty string. -/
theorem C5_statement_selection (env : Env) (event : Event)
    (rid rt cs us ds wg : String) (rp : ResourceProps)
    (h1 : event.RequestId = some rid)
    (h2 : event.RequestType = some rt)
    (hrp : event.ResourceProperties = some rp)
    (hc : rp.CreateQueryString = some cs)
    (hu : rp.UpdateQueryString = some us)
    (hd : rp.DeleteQueryString = some ds)
    (hwg : rp.WorkGroup = some wg) :
    (rt = "Create" → submitsOf (on_event env event) = [(cs, wg)]) ∧
    (rt = "Update" → submitsOf (on_event env event) = [(us, wg)]) ∧
    (rt = "Delete" → submitsOf (on_event env event) = [(ds, wg)]) ∧
    (rt ≠ "Create" → rt ≠ "Update" → rt ≠ "Delete" →
      submitsOf (on_event env event) = [("", wg)]) := by
  have hwg2 : getWorkGroup event = .ok wg := by
    simp [getWorkGroup, hrp, hwg]
  refine ⟨?_, ?_, ?_, ?_⟩
  · intro h
    subst h
    exact on_event_submits env event rid "Create" cs wg h1 h2
      (by simp [selectQueryString, hrp, hc]) hwg2
  · intro h
    subst h
    exact on_event_submits env event rid "Update" us wg h1 h2
      (by simp [selectQueryString, hrp, hu]) hwg2
  · intro h
    subst h
    exact on_event_submits env event rid "Delete" ds wg h1 h2
      (by simp [selectQueryString, hrp, hd]) hwg2
  · intro hn1 hn2 hn3
    exact on_event_submits env event rid rt "" wg h1 h2
      (by simp [selectQueryString, hn1, hn2, hn3]) hwg2

/-- C5 witness: a Create event submits the create statement. -/
theorem C5_witness :
    ("Create" = "Create" →
      submitsOf (on_event envSucceed eventFull) = [("cq", "wg")]) ∧
    ("Create" = "Update" →
      submitsOf (on_event envSucceed eventFull) = [("uq", "wg")]) ∧
    ("Create" = "Delete" →
      submitsOf (on_event envSucceed eventFull) = [("dq", "wg")]) ∧
    ("Create" ≠ "Create" → "Create" ≠ "Update" → "Create" ≠ "Delete" →
      submitsOf (on_event envSucceed eventFull) = [("", "wg")]) :=
  C5_statement_selection envSucceed eventFull "rid1" "Create" "cq" "uq" "dq"
    "wg" rpFull rfl rfl rfl rfl rfl rfl rfl

/-- C6: if `start_query_execution` throws, `on_event` sends a FAILED
response and makes zero `get_query_execution` calls. -/
theorem C6_submit_throw_fails_no_polls (env : Env) (event : Event)
    (rid rt qs wg err : String)
    (h1 : event.RequestId = some rid)
    (h2 : event.RequestType = some rt)
    (h3 : selectQueryString rt event = .ok qs)
    (h4 : getWorkGroup event = .ok wg)
    (h5 : env.start_query_execution qs wg = .error err) :
    on_event env event =
      .ok [⟨cfnFAILED, [], "AthenaQuery" ++ rid⟩] [(qs, wg)] 0 0
         [qs, err] := by
  simp only [on_event, h1, h2, h3, h4, h5]

/-- C6 witness: submission throws `AccessDenied`. -/
theorem C6_witness :
    on_event envStartThrows eventFull =
      .ok [⟨cfnFAILED, [], "AthenaQuery" ++ "rid1"⟩] [("cq", "wg")] 0 0
         ["cq", "AccessDenied"] :=
  C6_submit_throw_fails_no_polls envStartThrows eventFull "rid1" "Create"
    "cq" "wg" "AccessDenied" rfl rfl rfl rfl rfl

/-- C7: every invocation of `on_event` makes at most
`max_attempts = 20` poll calls, with `sleep_amount = 2` time units slept
between non-terminal polls; the handler is a total function, so it
terminates for every status sequence. -/
theorem C7_poll_bound (env : Env) (event : Event) :
    pollsOf (on_event env event) ≤ max_attempts ∧
    max_attempts = 20 ∧ sleep_amount = 2 := by
  refine ⟨?_, rfl, rfl⟩
  rcases h1 : event.RequestId with _ | rid
  · simp [on_event, h1, pollsOf]
  · rcases h2 : event.RequestType with _ | rt
    · simp [on_event, h1, h2, pollsOf]
    · rcases h3 : selectQueryString rt event with e | qs
      · simp [on_event, h1, h2, h3, pollsOf]
      · rcases h4 : getWorkGroup event with e | wg
        · simp [on_event, h1, h2, h3, h4, pollsOf]
        · rcases h5 : env.start_query_execution qs wg with e | qid
          · simp [on_event, h1, h2, h3, h4, h5, pollsOf]
          · have hb := queryLoop_polls_le env.get_query_execution
              ("AthenaQuery" ++ rid) max_attempts 0 (by omega)
              (by simp only [max_attempts]; omega) "RUNNING" 0 [qs]
            rcases hq : queryLoop env.get_query_execution
                ("AthenaQuery" ++ rid) "RUNNING" 0 0 [qs] with le | lo
            · rw [hq] at hb
              simp only [on_event, h1, h2, h3, h4, h5, hq, pollsOf]
              simpa [loopPolls] using hb
            · rw [hq] at hb
              simp only [on_event, h1, h2, h3, h4, h5, hq, pollsOf]
              simpa [loopPolls] using hb

/-- C8: with the status sequence QUEUED, RUNNING, SUCCEEDED the handler
sends a SUCCESS response after exactly 3 polls, sleeping after each of
the two non-terminal polls and not after the terminal one. -/
theorem C8_queued_running_succeeded (env : Env) (event : Event)
    (rid rt qs wg qid r0 r1 r2 : String)
    (h1 : event.RequestId = some rid)
    (h2 : event.RequestType = some rt)
    (h3 : selectQueryString rt event = .ok qs)
    (h4 : getWorkGroup event = .ok wg)
    (h5 : env.start_query_execution qs wg = .ok qid)
    (p0 : env.get_query_execution 0 = .ok ⟨"QUEUED", r0⟩)
    (p1 : env.get_query_execution 1 = .ok ⟨"RUNNING", r1⟩)
    (p2 : env.get_query_execution 2 = .ok ⟨"SUCCEEDED", r2⟩) :
    on_event env event =
      .ok [⟨cfnSUCCESS, [], "AthenaQuery" ++ rid⟩] [(qs, wg)] 3 2
         [qs, "Query succeeded"] := by
  rw [on_event_loop env event rid rt qs wg qid h1 h2 h3 h4 h5]
  rw [queryLoop_nonterminal_step env.get_query_execution ("AthenaQuery" ++ rid)
    "RUNNING" 0 0 [qs] ⟨"QUEUED", r0⟩ (Or.inl rfl) p0 (Or.inr rfl)
    (by simp only [max_attempts]; omega)]
  norm_num
  rw [queryLoop_nonterminal_step env.get_query_execution ("AthenaQuery" ++ rid)
    (PollResult.State ⟨"QUEUED", r0⟩) 1 1 [qs] ⟨"RUNNING", r1⟩ (Or.inr rfl) p1
    (Or.inl rfl) (by simp only [max_attempts]; omega)]
  norm_num
  rw [queryLoop_succeeded_step env.get_query_execution ("AthenaQuery" ++ rid)
    (PollResult.State ⟨"RUNNING", r1⟩) 2 2 [qs] ⟨"SUCCEEDED", r2⟩ (Or.inl rfl)
    p2 rfl]
  rfl

/-- C8 witness: the concrete QUEUED, RUNNING, SUCCEEDED client. -/
theorem C8_witness :
    on_event envQRS eventFull =
      .ok [⟨cfnSUCCESS, [], "AthenaQuery" ++ "rid1"⟩] [("cq", "wg")] 3 2
         ["cq", "Query succeeded"] :=
  C8_queued_running_succeeded envQRS eventFull "rid1" "Create" "cq" "wg"
    "qid" "q" "r" "s" rfl rfl rfl rfl rfl rfl rfl rfl

/-- C9 counterexample: with `WorkGroup` absent from
`ResourceProperties`, the handler does NOT submit the statement
unscoped — it submits nothing and sends a FAILED response (the
`KeyError` from the unconditional `WorkGroup` access is caught by the
`except` block). -/
theorem C9_counterexample :
    sentResponses (on_event envSucceed eventNoWg) =
      [⟨cfnFAILED, [], "AthenaQuery" ++ "r9"⟩] ∧
    submitsOf (on_event envSucceed eventNoWg) = [] := by
  constructor <;> rfl

/-- C9 amended: `event['ResourceProperties']['WorkGroup']` is read
unconditionally; when the key is absent the handler raises `KeyError`
internally, submits nothing, and returns a FAILED response (it does not
submit the statement unscoped). When the key is present, the submission
is scoped to it (see the submission lemma used by C5). -/
theorem C9_missing_workgroup_fails (env : Env) (event : Event)
    (rid rt qs : String) (rp : ResourceProps)
    (h1 : event.RequestId = some rid)
    (h2 : event.RequestType = some rt)
    (h3 : selectQueryString rt event = .ok qs)
    (hrp : event.ResourceProperties = some rp)
    (hwg : rp.WorkGroup = none) :
    on_event env event =
      .ok [⟨cfnFAILED, [], "AthenaQuery" ++ rid⟩] [] 0 0
         [qs, "KeyError: WorkGroup"] := by
  have h4 : getWorkGroup event = .error "KeyError: WorkGroup" := by
    simp [getWorkGroup, hrp, hwg]
  simp only [on_event, h1, h2, h3, h4]

/-- C9 witness: concrete event with no `WorkGroup` key. -/
theorem C9_witness :
    on_event envSucceed eventNoWg =
      .ok [⟨cfnFAILED, [], "AthenaQuery" ++ "r9"⟩] [] 0 0
         ["cq", "KeyError: WorkGroup"] :=
  C9_missing_workgroup_fails envSucceed eventNoWg "r9" "Create" "cq" rpNoWg
    rfl rfl rfl rfl rfl

/-! ### The `Database` and `Table` constructs (resource declaration layer)

The `CustomResource` property records built by the `Database`
(work-group.ts lines 214-226) and `Table` (lines 279-297) constructs.
Only string rendering is involved; the `s3.IBucket` argument contributes
its `bucketName` and the row/file formats contribute their `statement`
strings. -/

/-- A single-quote character, used inside the rendered SQL text. -/
def tick : String := String.singleton (Char.ofNat 39)

/-- The `properties` record passed to `cfn.CustomResource` by both
constructs. -/
structure CustomResourceProps where
  CreateQueryString : String
  UpdateQueryString : String
  DeleteQueryString : String
  WorkGroup : String
deriving DecidableEq, Repr

/-- The structured inputs of the `Table` construct that feed its query
strings (`TableOptions` plus the database and workgroup names supplied
by the enclosing `Database`). -/
structure TableOptions where
  name : String
  columns : List (String × String)
  rowFormatStatement : String
  fileFormatStatement : String
  locationBucketName : String
  locationKey : Option String
  encryptedData : Option Bool
deriving DecidableEq, Repr

/-- `Database` constructor, lines 214-226: `UpdateQueryString` is
assigned the same `createQueryString` value as `CreateQueryString`. -/
def databaseResourceProps (name workGroupName : String) :
    CustomResourceProps :=
  let createQueryString := "CREATE DATABASE IF NOT EXISTS " ++ name
  let deleteQueryString :=
    "DROP DATABASE IF EXISTS " ++ name ++ " CASCADE"
  ⟨createQueryString, createQueryString, deleteQueryString, workGroupName⟩

/-- `Table` constructor, lines 277-297.  JavaScript truthiness of the
template ternaries is preserved: an absent or empty `locationKey`
renders as `''`, and `encryptedData` renders `'true'` only when the
value is present and true. -/
def tableResourceProps (databaseName workGroupName : String)
    (options : TableOptions) : CustomResourceProps :=
  let columns := String.intercalate ","
    (options.columns.map (fun x => x.1 ++ " " ++ x.2))
  let locationPart :=
    match options.locationKey with
    | some k => if k = "" then "" else k ++ "/"
    | none => ""
  let encPart :=
    match options.encryptedData with
    | some true => "true"
    | _ => "false"
  let createQueryString :=
    "\n      CREATE EXTERNAL TABLE IF NOT EXISTS " ++ databaseName ++ "." ++
      options.name ++ " (" ++ columns ++ ")" ++
    "\n      ROW FORMAT " ++ options.rowFormatStatement ++
    "\n      STORED AS " ++ options.fileFormatStatement ++
    "\n      LOCATION " ++ tick ++ "s3://" ++ options.locationBucketName ++
      "/" ++ locationPart ++ tick ++
    "\n      TBLPROPERTIES (" ++ tick ++ "has_encrypted_data" ++ tick ++
      " = " ++ tick ++ encPart ++ tick ++ ")"
  let deleteQueryString :=
    "DROP TABLE " ++ databaseName ++ "." ++ options.name
  ⟨createQueryString, createQueryString, deleteQueryString, workGroupName⟩

/-- C10: for every `Database` and every `Table` construct, the rendered
`UpdateQueryString` is character-for-character the rendered
`CreateQueryString`, so an Update lifecycle event re-executes exactly
the create statement. -/
theorem C10_update_equals_create (dbName dbWg tblDb tblWg : String)
    (options : TableOptions) :
    (databaseResourceProps dbName dbWg).UpdateQueryString =
      (databaseResourceProps dbName dbWg).CreateQueryString ∧
    (tableResourceProps tblDb tblWg options).UpdateQueryString =
      (tableResourceProps tblDb tblWg options).CreateQueryString :=
  ⟨rfl, rfl⟩
